import Mathlib

/-!
A shallow embedding of the program in `memoria_demo/src/main.rs`: an
interactive demo that reads a student name and a birth year, computes an
age from the current calendar year, and prints the memory addresses of
its stack- and heap-resident values.

Modelling choices:
* I/O is an explicit world: the queued stdin lines (each carrying the
  trailing newline that `Stdin::read_line` delivers) plus success flags
  for flushing stdout and reading stdin.
* Machine integers are `Int` with explicit i32 range checks; the age
  subtraction is modelled with the default (dev-profile) overflow check,
  which aborts the program on overflow.
* Addresses are an abstract assignment `Obj → Nat` over the distinct
  runtime objects the program observes; Rust guarantees that distinct
  live objects have distinct addresses, so an execution corresponds to
  an injective assignment.
-/

namespace MemoriaDemo

/-- Rust `char::is_whitespace`: the full Unicode `White_Space` set
(U+0009-U+000D, space, U+0085, U+00A0, U+1680, U+2000-U+200A, U+2028,
U+2029, U+202F, U+205F, U+3000); `str::trim` strips these from both
ends. -/
def isRustWs (c : Char) : Bool :=
  c = ' ' || c = '\t' || c = '\n' || c = '\r' || c = '\x0B' || c = '\x0C' ||
  c = '\u0085' || c = '\u00A0' || c = '\u1680' ||
  (0x2000 ≤ c.toNat && c.toNat ≤ 0x200A) ||
  c = '\u2028' || c = '\u2029' || c = '\u202F' || c = '\u205F' || c = '\u3000'

/-- Model of Rust `str::trim_start` on the character list. -/
def trimStartChars (l : List Char) : List Char :=
  l.dropWhile isRustWs

/-- Model of Rust `str::trim_end` on the character list. -/
def trimEndChars (l : List Char) : List Char :=
  (l.reverse.dropWhile isRustWs).reverse

/-- Model of Rust `str::trim` (`s.trim()` at main.rs lines 16 and 37). -/
def trim (s : String) : String :=
  String.mk (trimStartChars (trimEndChars s.data))

/-- Digit accumulator of `i32::from_str`: consumes decimal digits,
failing on the first non-digit character. -/
def parseDigitsGo : List Char → Nat → Option Nat
  | [], acc => some acc
  | c :: cs, acc =>
    if c.isDigit then parseDigitsGo cs (acc * 10 + (c.toNat - 48)) else none

/-- Magnitude of a digit string: `none` when empty or holding a
non-digit. -/
def parseNatDigits : List Char → Option Nat
  | [] => none
  | c :: cs => parseDigitsGo (c :: cs) 0

def i32Min : Int := -2147483648

def i32Max : Int := 2147483647

/-- Model of `str::parse::<i32>` (main.rs line 16): optional sign, then
at least one decimal digit, and the value must fit in i32 (checking the
final magnitude is equivalent to the stepwise overflow check of
`from_str_radix`, since the magnitude only grows). -/
def parseI32 (s : String) : Option Int :=
  match s.data with
  | [] => none
  | c :: cs =>
    if c = '+' then
      (parseNatDigits cs).bind
        (fun n => if (n : Int) ≤ i32Max then some ((n : Nat) : Int) else none)
    else if c = '-' then
      (parseNatDigits cs).bind
        (fun n => if (n : Int) ≤ 2147483648 then some (-((n : Nat) : Int)) else none)
    else
      (parseNatDigits (c :: cs)).bind
        (fun n => if (n : Int) ≤ i32Max then some ((n : Nat) : Int) else none)

def banner : String := "=== memória_demo (Stack vs Heap) ===\n"

def welcome : String := "Bem-vindo ao demo de memória!"

def namePrompt : String := "Nome do estudante: "

def yearPrompt : String := "Ano de nascimento (YYYY): "

def invalidMsg : String := "Ano inválido. Tente novamente."

def flushFailMsg : String := "flush failed"

def readFailMsg : String := "failed to read"

def overflowMsg : String := "attempt to subtract with overflow"

def hintLine : String :=
  "\n(Dica) Para inspecionar o binário/assembly: veja seção \x27Ver binário / assembly\x27 no README."

/-- The year-acquisition loop (main.rs lines 13-19) over the queued
stdin lines: prompt, read a line, trim and parse; on failure print the
error message and repeat.  `none` models running the queue dry (the real
program then re-reads an empty line forever, never leaving the loop).
On success: the parsed year, the unconsumed lines, and the output chunks
emitted while looping. -/
def yearLoopList : List String → Option (Int × List String × List String)
  | [] => none
  | l :: rest =>
    match parseI32 (trim l) with
    | some y => some (y, rest, [yearPrompt])
    | none =>
      (yearLoopList rest).map (fun r => (r.1, r.2.1, yearPrompt :: invalidMsg :: r.2.2))

/-- Output chunks of the year loop for a run of failing lines followed
by one successful line. -/
def loopOutFor (bads : List String) : List String :=
  bads.foldr (fun _ acc => yearPrompt :: invalidMsg :: acc) [yearPrompt]

/-- Output chunks emitted for a run of failing lines alone. -/
def failNoise (bads : List String) : List String :=
  bads.foldr (fun _ acc => yearPrompt :: invalidMsg :: acc) []

/-- The year loop against an infinite stream of input lines, with fuel:
`none` means the loop is still running after consuming `fuel` lines. -/
def yearLoopStream : Nat → (Nat → String) → Option Int
  | 0, _ => none
  | n + 1, f =>
    match parseI32 (trim (f 0)) with
    | some y => some y
    | none => yearLoopStream n (fun k => f (k + 1))

/-- The ambient I/O world: queued stdin lines (each including its
trailing newline, as `Stdin::read_line` delivers them) and flags telling
whether flushing stdout and reading stdin succeed. -/
structure World where
  stdin : List String
  flushOk : Bool
  readOk : Bool
deriving Repr, DecidableEq

/-- Model of `read_line` (main.rs lines 67-73): print the prompt, flush
(`expect` aborts the program on failure), then read one full line
(`expect` aborts on failure; at end of input Rust returns `Ok(0)` and
the buffer stays empty).  The result carries the line, the remaining
world, and the printed chunks. -/
def read_line (prompt : String) (w : World) :
    Except String (String × World × List String) :=
  if w.flushOk = false then Except.error flushFailMsg
  else if w.readOk = false then Except.error readFailMsg
  else
    match w.stdin with
    | [] => Except.ok ("", w, [prompt])
    | l :: rest => Except.ok (l, { w with stdin := rest }, [prompt])

/-- The distinct runtime objects whose addresses main.rs prints with
`{:p}` (lines 44-54, 75-80). -/
inductive Obj where
  | welcomeLit
  | nameObj
  | nameBuf
  | stackValueObj
  | heapBoxObj
  | heapBoxPointee
  | nameCharsObj
  | nameCharsBuf
  | exampleFn
  | frameLocal
deriving Repr, DecidableEq, Fintype

/-- One concrete address assignment, used to instantiate theorems. -/
def addr0 : Obj → Nat
  | Obj.welcomeLit => 4096
  | Obj.nameObj => 140000
  | Obj.nameBuf => 95000
  | Obj.stackValueObj => 140004
  | Obj.heapBoxObj => 140008
  | Obj.heapBoxPointee => 95100
  | Obj.nameCharsObj => 140016
  | Obj.nameCharsBuf => 95200
  | Obj.exampleFn => 4200
  | Obj.frameLocal => 139000

/-- An observed entity: its in-frame container object and, when it
indirects to separately allocated storage, its buffer object. -/
structure Entity where
  heapBacked : Bool
  container : Obj
  buffer : Option Obj
deriving Repr, DecidableEq

/-- The entities observed by main.rs: the `welcome` literal reference
and `stack_value` are purely scalar/stack (no separate buffer); the
`name` String, the `Box`-ed integer and the `Vec<char>` are heap-backed
(stack container plus heap buffer). -/
def entities : List Entity :=
  [⟨false, Obj.welcomeLit, none⟩,
   ⟨true, Obj.nameObj, some Obj.nameBuf⟩,
   ⟨false, Obj.stackValueObj, none⟩,
   ⟨true, Obj.heapBoxObj, some Obj.heapBoxPointee⟩,
   ⟨true, Obj.nameCharsObj, some Obj.nameCharsBuf⟩]

/-- Rendering of `{:p}` pointer formatting: `0x` plus hex digits. -/
def fmtPtr (n : Nat) : String :=
  "0x" ++ String.mk (Nat.toDigits 16 n)

/-- The `--- Resultado ---` block (main.rs lines 36-40).  Only the
display of the name is trimmed; the name value itself is not. -/
def resultadoBlock (name : String) (birthYear currentYear age : Int) : List String :=
  ["\n--- Resultado ---",
   "Nome (String)   : " ++ trim name,
   "Ano nascimento  : " ++ toString birthYear,
   "Ano atual       : " ++ toString currentYear,
   "Idade aproximada: " ++ toString age ++ " anos\n"]

/-- The address-report block (main.rs lines 43-54): one labeled line per
observed object, ending with the code-segment address of
`example_function`. -/
def enderecosBlock (addr : Obj → Nat) : List String :=
  ["--- Endereços / Pistas de memória ---",
   "&welcome (literal .rodata)      = " ++ fmtPtr (addr Obj.welcomeLit),
   "name (String object on stack)   = " ++ fmtPtr (addr Obj.nameObj),
   "name buffer (heap) as_ptr()     = " ++ fmtPtr (addr Obj.nameBuf),
   "stack_value (stack)             = " ++ fmtPtr (addr Obj.stackValueObj),
   "heap_box pointer (on stack)     = " ++ fmtPtr (addr Obj.heapBoxObj),
   "heap_box pointee (heap)         = " ++ fmtPtr (addr Obj.heapBoxPointee),
   "name_chars Vec struct (stack)   = " ++ fmtPtr (addr Obj.nameCharsObj),
   "name_chars buffer (heap)        = " ++ fmtPtr (addr Obj.nameCharsBuf),
   "example_function (endereço código) = " ++ fmtPtr (addr Obj.exampleFn)]

/-- Model of `show_stack_frame` (main.rs lines 75-80): `{:p}` on the
`&String` parameter prints the address it points to, i.e. the caller's
`name` object; `&local` is a fresh object in the callee's frame. -/
def show_stack_frame (paramAddr localAddr : Nat) : List String :=
  ["\n--- Dentro de outra função (novo frame na stack) ---",
   "param name (referência) addr = " ++ fmtPtr paramAddr,
   "local (i32) addr              = " ++ fmtPtr localAddr]

/-- Model of `name.chars().collect::<Vec<char>>()` (main.rs line 29):
every character of the raw, untrimmed line. -/
def nameCharsOf (s : String) : List Char := s.data

/-- Model of the i32 subtraction `current_year - birth_year`
(main.rs line 34) under the default dev profile: overflow aborts the
program (in release builds it instead wraps, which equally fails to be
the exact mathematical difference). -/
def i32Sub (a b : Int) : Option Int :=
  if i32Min ≤ a - b ∧ a - b ≤ i32Max then some (a - b) else none

/-- Outcome of a whole program execution. -/
inductive RunResult where
  | ok (outs : List String)
  | fatal (msg : String)
  | diverge
deriving Repr, DecidableEq

/-- The whole of `main` (main.rs lines 4-61).  The first `read_line`
checks the world's flush/read flags; since those flags are constants of
the world, the year loop's own `read_line` calls are inlined as
`yearLoopList` over the remaining stdin queue.  A successful run emits
the banner, the welcome literal, the prompts and loop messages, the
results block, the address-report block, the second-frame block and the
closing hint, in that order. -/
def run (w : World) (addr : Obj → Nat) (currentYear : Int) : RunResult :=
  match read_line namePrompt w with
  | Except.error m => RunResult.fatal m
  | Except.ok (name, w2, nameOut) =>
    match yearLoopList w2.stdin with
    | none => RunResult.diverge
    | some (birthYear, _, loopOut) =>
      match i32Sub currentYear birthYear with
      | none => RunResult.fatal overflowMsg
      | some age =>
        RunResult.ok ([banner, welcome] ++ nameOut ++ loopOut ++
          resultadoBlock name birthYear currentYear age ++
          enderecosBlock addr ++
          show_stack_frame (addr Obj.nameObj) (addr Obj.frameLocal) ++
          [hintLine])

/-- Modelled from the spec's words: a string that is a syntactically
valid integer (an optional sign, then at least one decimal digit), with
no range restriction.  Used to compare the spec's notion of a valid
year against the program's `parse::<i32>`. -/
def specValidInt (s : String) : Bool :=
  match s.data with
  | [] => false
  | c :: cs =>
    if c = '+' || c = '-' then !cs.isEmpty && cs.all Char.isDigit
    else (c :: cs).all Char.isDigit

/-- Numeric value of a decimal digit string. -/
def digitsVal (l : List Char) : Nat :=
  l.foldl (fun a c => a * 10 + (c.toNat - 48)) 0

/-- Modelled from the spec's words: the mathematical integer denoted by
a syntactically valid integer string. -/
def specIntVal (s : String) : Int :=
  match s.data with
  | [] => 0
  | c :: cs =>
    if c = '+' then ((digitsVal cs : Nat) : Int)
    else if c = '-' then -((digitsVal cs : Nat) : Int)
    else ((digitsVal (c :: cs) : Nat) : Int)

theorem parseDigitsGo_eq (l : List Char) :
    ∀ acc, l.all Char.isDigit = true →
      parseDigitsGo l acc = some (l.foldl (fun a c => a * 10 + (c.toNat - 48)) acc) := by
  induction l with
  | nil => intro acc _; rfl
  | cons c cs ih =>
    intro acc h
    simp only [List.all_cons, Bool.and_eq_true] at h
    simp only [parseDigitsGo, h.1, if_true, List.foldl_cons]
    exact ih _ h.2

theorem parseNatDigits_digits (c : Char) (cs : List Char)
    (h : (c :: cs).all Char.isDigit = true) :
    parseNatDigits (c :: cs) = some (digitsVal (c :: cs)) := by
  simp only [parseNatDigits, digitsVal]
  exact parseDigitsGo_eq (c :: cs) 0 h

theorem isDigit_ne_sign (c : Char) (h : c.isDigit = true) :
    ¬ c = '+' ∧ ¬ c = '-' := by
  constructor <;> intro e <;> subst e <;> exact absurd h (by decide)

theorem trimEndChars_append_ws (l : List Char) (c : Char) (h : isRustWs c = true) :
    trimEndChars (l ++ [c]) = trimEndChars l := by
  simp [trimEndChars, List.dropWhile, h]

theorem trim_append_newline (s : String) : trim (s ++ "\n") = trim s := by
  have hdata : (s ++ "\n").data = s.data ++ ['\n'] := by
    cases s; rfl
  simp only [trim, hdata, trimEndChars_append_ws s.data '\n' (by decide)]

theorem yearLoopList_append (bads : List String) (yline : String)
    (rest : List String) (y : Int)
    (hb : ∀ l ∈ bads, parseI32 (trim l) = none)
    (hy : parseI32 (trim yline) = some y) :
    yearLoopList (bads ++ yline :: rest) = some (y, rest, loopOutFor bads) := by
  induction bads with
  | nil => simp [yearLoopList, hy, loopOutFor]
  | cons b bs ih =>
    have hbfail : parseI32 (trim b) = none := hb b (List.mem_cons_self b bs)
    have ih2 := ih (fun l hl => hb l (List.mem_cons_of_mem b hl))
    simp [yearLoopList, hbfail, ih2, loopOutFor]

/-- C1: in any execution (any injective address assignment, as Rust
guarantees for distinct live objects), each heap-backed entity observed
by the program — the `name` String, the `Box`-ed integer, the `Vec` of
name characters — has a container address different from its buffer
address, and the purely scalar/stack entities have no buffer address at
all. -/
theorem c1_heap_entity_addresses_distinct (addr : Obj → Nat)
    (hinj : Function.Injective addr) :
    (∀ e ∈ entities, e.heapBacked = true → ∀ b, e.buffer = some b →
      addr e.container ≠ addr b) ∧
    (∀ e ∈ entities, e.heapBacked = false → e.buffer = none) := by
  constructor
  · intro e he hh b hb
    fin_cases he <;> simp_all <;> subst hb <;> intro hcontra <;>
      exact absurd (hinj hcontra) (by decide)
  · intro e he hh
    fin_cases he <;> simp_all

theorem c1_witness :
    (∀ e ∈ MemoriaDemo.entities, e.heapBacked = true → ∀ b, e.buffer = some b →
      MemoriaDemo.addr0 e.container ≠ MemoriaDemo.addr0 b) ∧
    (∀ e ∈ MemoriaDemo.entities, e.heapBacked = false → e.buffer = none) :=
  c1_heap_entity_addresses_distinct addr0 (by decide)

/-- C2: for an input queue at the year prompt consisting of any number
of lines whose trimmed text fails to parse, followed by a final line
whose trimmed text parses to the integer `y`, the year-acquisition loop
returns exactly `y` (with the queue exhausted and one prompt per
attempt plus one error message per failed attempt), so the program
proceeds past the year prompt with that value and no other. -/
theorem c2_year_loop_returns_parsed (bads : List String) (yline : String) (y : Int)
    (hb : ∀ l ∈ bads, parseI32 (trim l) = none)
    (hy : parseI32 (trim yline) = some y) :
    yearLoopList (bads ++ [yline]) = some (y, [], loopOutFor bads) :=
  yearLoopList_append bads yline [] y hb hy

theorem c2_witness :
    MemoriaDemo.yearLoopList (["abc\n"] ++ ["2000\n"]) =
      some (2000, [], MemoriaDemo.loopOutFor (["abc\n"])) :=
  c2_year_loop_returns_parsed (["abc\n"]) ("2000\n") 2000 (by decide) (by decide)

/-- C3 is false as stated: `"-2147483648"` parses as a birth year, yet
with clock year 2025 the i32 subtraction `current_year - birth_year`
overflows, so the program aborts instead of computing and printing the
exact difference. -/
theorem c3_counterexample :
    parseI32 ("-2147483648") = some (-2147483648) ∧
    i32Sub 2025 (-2147483648) ≠ some (2025 - (-2147483648)) := by
  constructor
  · decide
  · decide

/-- C3 (amended): whenever the difference `current_year - birth_year`
fits in i32 — which includes every negative or zero result in range —
the computed age equals it exactly and that exact value appears in the
results block's age line. -/
theorem c3_age_exact_when_in_range (c b : Int) (nm : String)
    (hlo : i32Min ≤ c - b) (hhi : c - b ≤ i32Max) :
    i32Sub c b = some (c - b) ∧
    ("Idade aproximada: " ++ toString (c - b) ++ " anos\n") ∈
      resultadoBlock nm b c (c - b) := by
  constructor
  · simp [i32Sub, hlo, hhi]
  · simp [resultadoBlock]

theorem c3_witness :
    MemoriaDemo.i32Sub 2025 2000 = some (2025 - 2000) ∧
    ("Idade aproximada: " ++ toString ((2025 : Int) - 2000) ++ " anos\n") ∈
      MemoriaDemo.resultadoBlock ("Ana\n") 2000 2025 (2025 - 2000) :=
  c3_age_exact_when_in_range 2025 2000 ("Ana\n") (by decide) (by decide)

/-- C4 is false as stated: `"9999999999"` is a syntactically valid
integer string (digits only), yet `parse::<i32>` rejects it, because the
value does not fit in i32 — so the year prompt does bound the accepted
magnitude by the i32 range. -/
theorem c4_counterexample :
    specValidInt ("9999999999") = true ∧ parseI32 ("9999999999") = none := by
  constructor
  · decide
  · decide

/-- C4 (amended): every syntactically valid integer string whose value
fits in i32 — including any negative year and any large year up to the
i32 bounds — is accepted by the parse step with exactly its mathematical
value; no application-level range validation is performed beyond the
machine-integer range itself. -/
theorem c4_in_range_accepted (s : String)
    (hv : specValidInt s = true)
    (hlo : i32Min ≤ specIntVal s) (hhi : specIntVal s ≤ i32Max) :
    parseI32 s = some (specIntVal s) := by
  cases hs : s.data with
  | nil => simp [specValidInt, hs] at hv
  | cons c cs =>
    simp only [specValidInt, hs] at hv
    simp only [specIntVal, hs] at hlo hhi
    simp only [parseI32, hs]
    by_cases hplus : c = '+'
    · subst hplus
      rw [if_pos (by simp)] at hv
      rw [Bool.and_eq_true] at hv
      simp at hlo hhi
      simp only [specIntVal, hs, reduceIte]
      cases cs with
      | nil => simp at hv
      | cons d ds =>
        rw [parseNatDigits_digits d ds hv.2]
        simp [hhi]
    · by_cases hminus : c = '-'
      · subst hminus
        rw [if_pos (by simp)] at hv
        rw [Bool.and_eq_true] at hv
        simp at hlo hhi
        simp only [specIntVal, hs, reduceIte]
        cases cs with
        | nil => simp at hv
        | cons d ds =>
          rw [parseNatDigits_digits d ds hv.2]
          have hbound : digitsVal (d :: ds) ≤ 2147483648 := by
            simp only [i32Min] at hlo
            omega
          simp [hbound]
      · rw [if_neg (by simp [hplus, hminus])] at hv
        simp [hplus, hminus] at hlo hhi
        simp only [specIntVal, hs]
        simp only [hplus, hminus, if_false, reduceIte]
        rw [parseNatDigits_digits c cs hv]
        simp [hhi]

theorem c4_witness :
    MemoriaDemo.parseI32 ("-1987") = some (MemoriaDemo.specIntVal ("-1987")) :=
  c4_in_range_accepted ("-1987") (by decide) (by decide) (by decide)

/-- C5 is false as stated: on input name `"Ana"` and birth year
`"-2147483648"` (a successfully parsed year) with clock year 2025, the
age subtraction itself fails — the run aborts with the overflow
message, even though reading, flushing and parsing all succeeded. -/
theorem c5_counterexample :
    run ⟨["Ana\n", "-2147483648\n"], true, true⟩ addr0 2025 =
      RunResult.fatal overflowMsg := by
  decide

/-- C5 (amended): the age subtraction cannot fail whenever the
difference fits in i32, and the only failing operations anywhere in the
program are flushing the output stream, reading the input stream, and
the age subtraction on i32 overflow (year parsing failing is handled
inside the loop and never aborts a run). -/
theorem c5_failure_sources (c b : Int) (w : World) (a : Obj → Nat) (m : String)
    (hlo : i32Min ≤ c - b) (hhi : c - b ≤ i32Max) :
    (i32Sub c b).isSome = true ∧
    (run w a c = RunResult.fatal m →
      m = flushFailMsg ∨ m = readFailMsg ∨ m = overflowMsg) := by
  constructor
  · simp [i32Sub, hlo, hhi]
  · intro h
    obtain ⟨sin, fOk, rOk⟩ := w
    cases fOk with
    | false =>
      simp only [run, read_line] at h
      simp at h
      exact Or.inl h.symm
    | true =>
      cases rOk with
      | false =>
        simp only [run, read_line] at h
        simp at h
        exact Or.inr (Or.inl h.symm)
      | true =>
        cases sin with
        | nil =>
          simp only [run, read_line] at h
          simp [yearLoopList] at h
        | cons l rest =>
          simp only [run, read_line] at h
          simp only [Bool.true_eq_false, if_false, reduceIte] at h
          cases hyl : yearLoopList rest with
          | none => simp [hyl] at h
          | some r =>
            obtain ⟨y2, rest2, out2⟩ := r
            simp only [hyl] at h
            cases his : i32Sub c y2 with
            | none =>
              simp only [his] at h
              simp at h
              exact Or.inr (Or.inr h.symm)
            | some age =>
              simp only [his] at h
              simp at h

theorem c5_witness :
    (MemoriaDemo.i32Sub 2030 1990).isSome = true ∧
    (MemoriaDemo.run ⟨["Bea\n", "1990\n"], true, true⟩ MemoriaDemo.addr0 2030 =
        MemoriaDemo.RunResult.fatal ("boom") →
      ("boom" : String) = MemoriaDemo.flushFailMsg ∨
      ("boom" : String) = MemoriaDemo.readFailMsg ∨
      ("boom" : String) = MemoriaDemo.overflowMsg) :=
  c5_failure_sources 2030 1990 ⟨["Bea\n", "1990\n"], true, true⟩ addr0 ("boom")
    (by decide) (by decide)

/-- C6: lines whose trimmed text fails to parse make the year loop print
the prompt and the invalid-year message once per such line and then
continue with the rest of the queue — however many consecutive invalid
attempts occur, the loop never returns on them, and the parse failure
never escapes: the loop's outcome is exactly its outcome on the
remaining queue, with the retry noise prefixed to the output. -/
theorem c6_invalid_lines_only_retry (bads rest : List String)
    (hb : ∀ l ∈ bads, parseI32 (trim l) = none) :
    yearLoopList (bads ++ rest) =
      (yearLoopList rest).map (fun r => (r.1, r.2.1, failNoise bads ++ r.2.2)) := by
  induction bads with
  | nil =>
    cases hr : yearLoopList rest <;> simp [failNoise, hr]
  | cons b bs ih =>
    have hbfail : parseI32 (trim b) = none := hb b (List.mem_cons_self b bs)
    have ih2 := ih (fun l hl => hb l (List.mem_cons_of_mem b hl))
    have step : yearLoopList (b :: (bs ++ rest)) =
        (yearLoopList (bs ++ rest)).map
          (fun r => (r.1, r.2.1, yearPrompt :: invalidMsg :: r.2.2)) := by
      simp [yearLoopList, hbfail]
    rw [List.cons_append, step, ih2, Option.map_map]
    cases hr : yearLoopList rest with
    | none => rfl
    | some r => rfl

theorem c6_witness :
    MemoriaDemo.yearLoopList (["x#\n"] ++ ["1999\n"]) =
      (MemoriaDemo.yearLoopList (["1999\n"])).map
        (fun r => (r.1, r.2.1, MemoriaDemo.failNoise (["x#\n"]) ++ r.2.2)) :=
  c6_invalid_lines_only_retry (["x#\n"]) (["1999\n"]) (by decide)

/-- C7: for every prompt, the line-reading operation emits the prompt
and flushes before blocking; on success it returns the queued line in
full, including any trailing newline the queue carries; and a failed
flush or a failed read is fatal — the operation aborts the program with
the corresponding message and offers no recovery or retry. -/
theorem c7_read_line_contract (prompt : String) (w : World) :
    (w.flushOk = false → read_line prompt w = Except.error flushFailMsg) ∧
    (w.flushOk = true → w.readOk = false →
      read_line prompt w = Except.error readFailMsg) ∧
    (w.flushOk = true → w.readOk = true →
      read_line prompt w =
        Except.ok (w.stdin.headD "", { w with stdin := w.stdin.tail }, [prompt])) := by
  obtain ⟨sin, fOk, rOk⟩ := w
  refine ⟨?_, ?_, ?_⟩
  · intro hf; subst hf; rfl
  · intro hf hr; subst hf; subst hr; rfl
  · intro hf hr; subst hf; subst hr; cases sin <;> rfl

theorem c7_witness :
    MemoriaDemo.read_line MemoriaDemo.namePrompt ⟨["Ana\n"], true, true⟩ =
      Except.ok ("Ana\n", ⟨[], true, true⟩, [MemoriaDemo.namePrompt]) :=
  (c7_read_line_contract namePrompt ⟨["Ana\n"], true, true⟩).2.2 rfl rfl

/-- C8: on every successful run — flushing and reading succeed, the
queue holds the name line, then any number of unparsable year lines,
then a parsable one, and the age subtraction stays in i32 range — the
standard output is exactly the fixed sequence: banner, welcome literal,
name prompt, the year-loop chunks, the results block (name, birth year,
current year, age), the address-report block with one labeled line per
observed object plus the code-segment line, the second-frame block with
its two address lines, and the closing hint; the run then finishes in
the successful outcome. -/
theorem c8_output_fixed_sequence (nameLine yline : String)
    (bads rest : List String) (y age : Int) (addr : Obj → Nat) (cy : Int)
    (hb : ∀ l ∈ bads, parseI32 (trim l) = none)
    (hy : parseI32 (trim yline) = some y)
    (ha : i32Sub cy y = some age) :
    run ⟨nameLine :: (bads ++ yline :: rest), true, true⟩ addr cy =
      RunResult.ok ([banner, welcome] ++ [namePrompt] ++ loopOutFor bads ++
        resultadoBlock nameLine y cy age ++
        enderecosBlock addr ++
        show_stack_frame (addr Obj.nameObj) (addr Obj.frameLocal) ++
        [hintLine]) := by
  have hloop := yearLoopList_append bads yline rest y hb hy
  simp only [run, read_line, Bool.true_eq_false, if_false, reduceIte]
  simp only [hloop, ha]

theorem c8_witness :
    MemoriaDemo.run ⟨["Ana\n", "2000\n"], true, true⟩ MemoriaDemo.addr0 2025 =
      MemoriaDemo.RunResult.ok
        ([MemoriaDemo.banner, MemoriaDemo.welcome] ++ [MemoriaDemo.namePrompt] ++
          MemoriaDemo.loopOutFor [] ++
          MemoriaDemo.resultadoBlock ("Ana\n") 2000 2025 25 ++
          MemoriaDemo.enderecosBlock MemoriaDemo.addr0 ++
          MemoriaDemo.show_stack_frame (MemoriaDemo.addr0 Obj.nameObj)
            (MemoriaDemo.addr0 Obj.frameLocal) ++
          [MemoriaDemo.hintLine]) :=
  c8_output_fixed_sequence ("Ana\n") ("2000\n") [] [] 2000 25 addr0 2025
    (by decide) (by decide) (by decide)

theorem yearLoopStream_sound (n : Nat) :
    ∀ f : Nat → String, ∀ y, yearLoopStream n f = some y →
      ∃ k, (parseI32 (trim (f k))).isSome = true := by
  induction n with
  | zero => intro f y h; simp [yearLoopStream] at h
  | succ n ih =>
    intro f y h
    cases hp : parseI32 (trim (f 0)) with
    | some z => exact ⟨0, by simp [hp]⟩
    | none =>
      simp only [yearLoopStream, hp] at h
      obtain ⟨k, hk⟩ := ih _ _ h
      exact ⟨k + 1, hk⟩

theorem yearLoopStream_complete (k : Nat) :
    ∀ f : Nat → String, (parseI32 (trim (f k))).isSome = true →
      ∃ y, yearLoopStream (k + 1) f = some y := by
  induction k with
  | zero =>
    intro f h
    cases hp : parseI32 (trim (f 0)) with
    | none => simp [hp] at h
    | some z => exact ⟨z, by simp [yearLoopStream, hp]⟩
  | succ k ih =>
    intro f h
    cases hp : parseI32 (trim (f 0)) with
    | some z => exact ⟨z, by simp [yearLoopStream, hp]⟩
    | none =>
      obtain ⟨y, hy⟩ := ih (fun i => f (i + 1)) h
      refine ⟨y, ?_⟩
      simp only [yearLoopStream, hp]
      exact hy

/-- C9: the year-parse retry loop is unbounded: against a stream of
input lines it returns within some finite number of iterations exactly
when some line's trimmed text parses as an integer — with persistently
invalid input no amount of fuel makes it return, i.e. it loops
forever. -/
theorem c9_loop_terminates_iff (f : Nat → String) :
    (∃ n y, yearLoopStream n f = some y) ↔
      (∃ k, (parseI32 (trim (f k))).isSome = true) := by
  constructor
  · rintro ⟨n, y, h⟩
    exact yearLoopStream_sound n f y h
  · rintro ⟨k, hk⟩
    obtain ⟨y, hy⟩ := yearLoopStream_complete k f hk
    exact ⟨k + 1, y, hy⟩

/-- C10: the stored name keeps its trailing newline — the derived
character sequence of a name line `s ++ "\n"` is exactly the raw
characters followed by the newline — while the results block displays
only the trimmed text in its name line: trimming happens in that
printed line alone, never to the stored value. -/
theorem c10_name_newline_kept (s : String) (b c a : Int) :
    nameCharsOf (s ++ "\n") = s.data ++ ['\n'] ∧
    trim (s ++ "\n") = trim s ∧
    resultadoBlock (s ++ "\n") b c a =
      ["\n--- Resultado ---",
       "Nome (String)   : " ++ trim s,
       "Ano nascimento  : " ++ toString b,
       "Ano atual       : " ++ toString c,
       "Idade aproximada: " ++ toString a ++ " anos\n"] := by
  refine ⟨?_, trim_append_newline s, ?_⟩
  · show (s ++ "\n").data = s.data ++ ['\n']
    cases s; rfl
  · simp [resultadoBlock, trim_append_newline s]

end MemoriaDemo
